import Mathlib

/-!
# Verification of the wpa-supplicant network manager

Shallow embedding of `src/wpa/wpasupplicantnetworkmanager.cpp` from the
aethercast repository.  The `WpaSupplicantNetworkManager` class is modelled
as a pure state record `Manager`; each member function becomes a Lean
function on that record.  A handler that dereferences a null
`current_peer_` pointer in the C++ source returns `none` here (the run is
undefined); total handlers return the updated state directly.

Modelling conventions:
* `std::shared_ptr<mcs::NetworkDevice>` values live in a store
  (`Manager.store`, a list indexed by position); a pointer is the index,
  the null pointer is `Option.none`.
* `available_devices_` (a `std::unordered_map<std::string, NetworkDevice::Ptr>`)
  is an association list with unique keys; `operator[]` on a missing key
  default-constructs a null entry, exactly as in C++.
* Timers (`g_timeout_add` / `g_source_remove`) become booleans recording
  whether the one-shot source is armed; the durations are kept as the
  constants below.
* Delegate callbacks are recorded in arrival order in `Manager.events`;
  every callback is guarded by `if (delegate_)` as in the source.
* Outgoing supplicant requests (`RequestAsync`) are appended to
  `Manager.command_queue`.  Per the command-queue contract (spec 4.2,
  the queue implementation is outside this file's sources), enqueueing
  never invokes the reply handler; replies are delivered later by
  `on_incoming`, so a local captured by a reply handler is unchanged when
  the enqueueing function returns.
* The codec (`WpaSupplicantMessage`) is outside the embedded sources; the
  handlers take the already-parsed fields (role token, reason token,
  address, name) as arguments, and request serialization follows the
  builder contract of spec 4.1/6 (token, blank, arguments).
-/

/-- Peer state, `mcs::NetworkDeviceState`. -/
inductive NetworkDeviceState
  | kIdle
  | kAssociation
  | kConfiguration
  | kConnected
  | kFailure
  | kDisconnected
  deriving DecidableEq, Repr

/-- A discovered peer, `mcs::NetworkDevice` (address, name, state; the class
itself lives outside the embedded sources, its attributes are the ones the
manager reads and writes: `Address`, `Name`, `State`). -/
structure NetworkDevice where
  address : String
  name : String
  state : NetworkDeviceState
  deriving DecidableEq, Repr

/-- Placeholder device used as the default of `List.getD` reads of the
store; well-formed runs never read out of range. -/
def devNone : NetworkDevice :=
  { address := "", name := "", state := NetworkDeviceState.kIdle }

/-- One delegate callback (`NetworkManager::Delegate`).  `onDeviceLost`
carries an `Option` because `Reset` forwards table values verbatim, and the
table can hold null pointers. -/
inductive DelegateEvent
  | onDeviceFound (d : NetworkDevice)
  | onDeviceLost (d : Option NetworkDevice)
  | onDeviceStateChanged (d : NetworkDevice)
  deriving DecidableEq, Repr

/-- `kSupplicantRespawnLimit` (source line 55). -/
def kSupplicantRespawnLimit : Nat := 10

/-- `kDhcpIpAssignmentTimeout` in milliseconds (source line 53). -/
def kDhcpIpAssignmentTimeout : Nat := 5000

/-- `kPeerFailureTimeout` in milliseconds (source line 54). -/
def kPeerFailureTimeout : Nat := 5000

/-- `kSupplicantRespawnTimeout` in milliseconds (source line 56). -/
def kSupplicantRespawnTimeout : Nat := 2000

/-- `interface_name_`, fixed to `"p2p0"` by the constructor. -/
def interface_name : String := "p2p0"

/-- The mutable state of one `WpaSupplicantNetworkManager` instance. -/
structure Manager where
  /-- heap of `mcs::NetworkDevice` objects; a pointer is an index. -/
  store : List NetworkDevice
  /-- `available_devices_`: address to device pointer (none = null). -/
  available_devices : List (String × Option Nat)
  /-- `current_peer_` (none = null pointer). -/
  current_peer : Option Nat
  /-- whether `delegate_` is non-null. -/
  delegate : Bool
  /-- `is_group_owner_`. -/
  is_group_owner : Bool
  /-- `dhcp_timeout_` source armed (non-zero id). -/
  dhcp_timeout : Bool
  /-- the `OnDeviceFailureTimeout` source armed. -/
  failure_timeout : Bool
  /-- DHCP client running (`dhcp_client_.Start/Stop`). -/
  dhcp_client_running : Bool
  /-- DHCP server running (`dhcp_server_.Start/Stop`). -/
  dhcp_server_running : Bool
  /-- `respawn_limit_`. -/
  respawn_limit : Nat
  /-- `respawn_source_` armed (non-zero id). -/
  respawn_scheduled : Bool
  /-- control socket / channel up (`sock_`, `channel_`). -/
  sock_open : Bool
  /-- `supplicant_pid_`. -/
  supplicant_pid : Int
  /-- requests handed to `RequestAsync`, oldest first. -/
  command_queue : List String
  /-- delegate callbacks emitted so far, oldest first. -/
  events : List DelegateEvent
  deriving DecidableEq, Repr

/-- Read a device out of the store. -/
def getDev (m : Manager) (id : Nat) : NetworkDevice :=
  m.store.getD id devNone

/-- The in-place update `peer->SetAddress(address); peer->SetName(name);`
performed by `OnP2pDeviceFound` on a known peer. -/
def updDev (m : Manager) (id : Nat) (addr name : String) : NetworkDevice :=
  { getDev m id with address := addr, name := name }

/-- `peer->SetState(s)` on the device the index points to. -/
def setState (m : Manager) (id : Nat) (s : NetworkDeviceState) : Manager :=
  { m with store := m.store.set id { m.store.getD id devNone with state := s } }

/-- `if (delegate_) delegate_->OnDeviceStateChanged(current_peer_)`:
record the callback with a snapshot of the device. -/
def notifyStateChanged (m : Manager) (id : Nat) : Manager :=
  { m with events := m.events ++
      (if m.delegate then [DelegateEvent.onDeviceStateChanged (getDev m id)] else []) }

/-- `RequestAsync` / `command_queue_->EnqueueCommand`: append the request;
the reply handler is not invoked here (spec 4.2). -/
def enqueueRequest (req : String) (m : Manager) : Manager :=
  { m with command_queue := m.command_queue ++ [req] }

/-- `available_devices_.find(k)` as an association-list lookup. -/
def tableFind (t : List (String × Option Nat)) (k : String) : Option (Option Nat) :=
  (t.find? (fun e => e.1 == k)).map (fun e => e.2)

/-- `available_devices_[k]`: return the mapped value, default-inserting a
null entry when the key is absent (C++ `operator[]`). -/
def tableBracket (t : List (String × Option Nat)) (k : String) :
    Option Nat × List (String × Option Nat) :=
  match tableFind t k with
  | some v => (v, t)
  | none => (none, t ++ [(k, none)])

/-- The loop of `OnP2pDeviceFound` over `available_devices_`: dereference
each stored pointer and compare `peer->Address()` with the event address.
Returns `none` when a null pointer is dereferenced, `some none` when no
entry matches, `some (some id)` for the first match. -/
def scanForPeer (store : List NetworkDevice) :
    List (String × Option Nat) → String → Option (Option Nat)
  | [], _ => some none
  | (_, none) :: _, _ => none
  | (_, some id) :: rest, addr =>
      if (store.getD id devNone).address == addr then some (some id)
      else scanForPeer store rest addr

/-- `OnP2pDeviceFound` (source lines 131-165): update a known peer in
place (no delegate call), otherwise allocate a device, insert it under its
address and emit `OnDeviceFound`.  `config_methods` is read only for the
log line and is not stored. -/
def OnP2pDeviceFound (addr name : String) (m : Manager) : Option Manager :=
  match scanForPeer m.store m.available_devices addr with
  | none => none
  | some (some id) =>
      let d := { m.store.getD id devNone with address := addr, name := name }
      some { m with store := m.store.set id d }
  | some none =>
      let d : NetworkDevice :=
        { address := addr, name := name, state := NetworkDeviceState.kIdle }
      let id := m.store.length
      let m' := { m with store := m.store ++ [d],
                         available_devices := m.available_devices ++ [(addr, some id)] }
      some { m' with events := m'.events ++
               (if m'.delegate then [DelegateEvent.onDeviceFound d] else []) }

/-- `OnP2pDeviceLost` (source lines 167-179): `operator[]` lookup (which
default-inserts a null entry on a missing key), return if null, otherwise
notify `OnDeviceLost`.  The source never erases the entry. -/
def OnP2pDeviceLost (addr : String) (m : Manager) : Manager :=
  let r := tableBracket m.available_devices addr
  match r.1 with
  | none => { m with available_devices := r.2 }
  | some id =>
      { m with available_devices := r.2,
               events := m.events ++
                 (if m.delegate then [DelegateEvent.onDeviceLost (some (getDev m id))] else []) }

/-- `OnP2pGroupStarted` (source lines 181-220). -/
def OnP2pGroupStarted (role : String) (m : Manager) : Manager :=
  match m.current_peer with
  | none => m
  | some id =>
      let m1 := notifyStateChanged (setState m id NetworkDeviceState.kConfiguration) id
      if role == "GO" then
        let m2 := { m1 with is_group_owner := true }
        let m3 := setState m2 id NetworkDeviceState.kConnected
        let m4 := { m3 with dhcp_server_running := true }
        notifyStateChanged m4 id
      else
        let m2 := { m1 with is_group_owner := false }
        let m3 := { m2 with dhcp_client_running := true }
        { m3 with dhcp_timeout := true }

/-- Reason-to-state table of `OnP2pGroupRemoved` (source lines 230-236);
dead code in the source because of the inverted guard above it. -/
def groupRemovedState (reason : String) : NetworkDeviceState :=
  if reason == "FORMATION_FAILED" || reason == "PSK_FAILURE"
      || reason == "FREQ_CONFLICT" then
    NetworkDeviceState.kFailure
  else NetworkDeviceState.kDisconnected

/-- `OnP2pGroupRemoved` (source lines 222-242).  The guard reads
`if (current_peer_.get()) return;`: with a current peer the handler
returns immediately, and without one it falls through to
`current_peer_->SetState(...)`, a null dereference (`none`). -/
def OnP2pGroupRemoved (_reason : String) (m : Manager) : Option Manager :=
  if m.current_peer.isSome then some m
  else none

/-- `OnAddressAssigned` (source lines 537-551); the address argument is
unused by the body. -/
def OnAddressAssigned (_addr : String) (m : Manager) : Manager :=
  match m.current_peer with
  | none => m
  | some id =>
      let m1 := { m with dhcp_timeout := false }
      notifyStateChanged (setState m1 id NetworkDeviceState.kConnected) id

/-- `OnDeviceFailureTimeout` (source lines 553-558): dereferences
`current_peer_` without a null check and sets it to `kIdle`; no delegate
call is made. -/
def OnDeviceFailureTimeout (m : Manager) : Option Manager :=
  match m.current_peer with
  | none => none
  | some id => some { (setState m id NetworkDeviceState.kIdle) with failure_timeout := false }

/-- `OnGroupClientDhcpTimeout` (source lines 560-575): no-op without a
current peer; otherwise peer to `kFailure`, arm the peer-failure cooldown,
notify the delegate.  The source is a one-shot timer (returns FALSE), so
the armed flag clears. -/
def OnGroupClientDhcpTimeout (m : Manager) : Manager :=
  match m.current_peer with
  | none => { m with dhcp_timeout := false }
  | some id =>
      let m1 := setState { m with dhcp_timeout := false } id NetworkDeviceState.kFailure
      let m2 := { m1 with failure_timeout := true }
      notifyStateChanged m2 id

/-- `Reset` (source lines 307-331). -/
def Reset (m : Manager) : Manager :=
  let m1 :=
    match m.current_peer with
    | some id =>
        let a := notifyStateChanged (setState m id NetworkDeviceState.kDisconnected) id
        { a with current_peer := none, dhcp_timeout := false,
                 dhcp_client_running := false, dhcp_server_running := false }
    | none => m
  let lostEvents := m1.available_devices.map
    (fun e => DelegateEvent.onDeviceLost (e.2.map (fun id => getDev m1 id)))
  let m2 := { m1 with events := m1.events ++ (if m1.delegate then lostEvents else []) }
  { m2 with available_devices := [], is_group_owner := false }

/-- `Connect` (source lines 601-623).  Returns the C++ return value
together with the new state: the `ret` local starts `false` and is only
set inside the queued reply handler, which has not run when the function
returns (spec 4.2), so the returned boolean is `false` on every path. -/
def Connect (addr : String) (m : Manager) : Bool × Manager :=
  match tableFind m.available_devices addr with
  | none => (false, m)
  | some v =>
      if m.current_peer.isSome then (false, m)
      else
        let m1 := { m with current_peer := v }
        (false, enqueueRequest ("P2P_CONNECT " ++ addr ++ " pbc") m1)

/-- `DisconnectAll` (source lines 625-639); same return-value shape as
`Connect`. -/
def DisconnectAll (m : Manager) : Bool × Manager :=
  (false, enqueueRequest ("P2P_GROUP_REMOVE " ++ interface_name) m)

/-- `DisconnectSupplicant` (source lines 488-507): tears the channel and
socket down; modelled on the single open/closed flag. -/
def DisconnectSupplicant (m : Manager) : Manager :=
  { m with sock_open := false }

/-- `StopSupplicant` (source lines 409-415). -/
def StopSupplicant (m : Manager) : Manager :=
  if m.supplicant_pid < 0 then m else { m with supplicant_pid := 0 }

/-- `HandleSupplicantFailed` (source lines 293-305): arm the 2 s respawn
source and decrement the budget only when the budget is non-zero, then
disconnect, stop and `Reset`. -/
def HandleSupplicantFailed (m : Manager) : Manager :=
  let m1 :=
    if m.respawn_limit > 0 then
      { m with respawn_scheduled := true, respawn_limit := m.respawn_limit - 1 }
    else m
  Reset (StopSupplicant (DisconnectSupplicant m1))

/-- `OnSupplicantRespawn` (source lines 280-291): on a failed
`StartSupplicant` with budget left, decrement and keep the timer alive;
otherwise the one-shot source ends. -/
def OnSupplicantRespawn (startOk : Bool) (m : Manager) : Manager :=
  if !startOk && m.respawn_limit > 0 then
    { m with respawn_limit := m.respawn_limit - 1 }
  else { m with respawn_scheduled := false }

/-- `SetWfdSubElements` (source lines 577-584). -/
def SetWfdSubElements (elements : List String) (m : Manager) : Manager :=
  elements.enum.foldl
    (fun acc p => enqueueRequest ("WFD_SUBELEM_SET " ++ toString p.1 ++ " " ++ p.2) acc) m

/-- Outcomes of the system calls `ConnectSupplicant` performs. -/
structure ConnEnv where
  socketOk : Bool
  bindOk : Bool
  connectOk : Bool
  watchOk : Bool
  deriving DecidableEq, Repr

/-- `ConnectSupplicant` (source lines 417-486): early-out on each failed
system call; on success enqueue `ATTACH`, `SET wifi_display 1` and the
initial WFD sub-element, then re-arm `respawn_limit_` to its maximum. -/
def ConnectSupplicant (env : ConnEnv) (m : Manager) : Bool × Manager :=
  if !env.socketOk then (false, m)
  else
    let m1 := { m with sock_open := true }
    if !env.bindOk then (false, m1)
    else if !env.connectOk then (false, m1)
    else if !env.watchOk then (false, m1)
    else
      let m2 := enqueueRequest "ATTACH" m1
      let m3 := enqueueRequest "SET wifi_display 1" m2
      let m4 := SetWfdSubElements ["000600101C440032"] m3
      (true, { m4 with respawn_limit := kSupplicantRespawnLimit })

/-- One coordinator-level operation, for whole-system statements. -/
inductive Op
  | deviceFound (addr name : String)
  | deviceLost (addr : String)
  | groupStarted (role : String)
  | groupRemoved (reason : String)
  | addressAssigned (addr : String)
  | dhcpTimeoutFired
  | failureTimeoutFired
  | resetOp
  | connectOp (addr : String)
  | disconnectAllOp
  | handleFailure
  | respawnFired (startOk : Bool)
  | connectSup (env : ConnEnv)

/-- Run one operation; `none` when the source run is undefined (null
pointer dereference). -/
def applyOp : Op → Manager → Option Manager
  | Op.deviceFound a n, m => OnP2pDeviceFound a n m
  | Op.deviceLost a, m => some (OnP2pDeviceLost a m)
  | Op.groupStarted r, m => some (OnP2pGroupStarted r m)
  | Op.groupRemoved r, m => OnP2pGroupRemoved r m
  | Op.addressAssigned a, m => some (OnAddressAssigned a m)
  | Op.dhcpTimeoutFired, m => some (OnGroupClientDhcpTimeout m)
  | Op.failureTimeoutFired, m => OnDeviceFailureTimeout m
  | Op.resetOp, m => some (Reset m)
  | Op.connectOp a, m => some (Connect a m).2
  | Op.disconnectAllOp, m => some (DisconnectAll m).2
  | Op.handleFailure, m => some (HandleSupplicantFailed m)
  | Op.respawnFired ok, m => some (OnSupplicantRespawn ok m)
  | Op.connectSup env, m => some (ConnectSupplicant env m).2

/-- The peer of spec scenario S1. -/
def devS1 : NetworkDevice :=
  { address := "4e:74:03:70:e2:c1", name := "Aquaris M10",
    state := NetworkDeviceState.kIdle }

/-- A freshly constructed manager with a delegate attached and the
supplicant session up. -/
def mgr0 : Manager :=
  { store := [], available_devices := [], current_peer := none, delegate := true,
    is_group_owner := false, dhcp_timeout := false, failure_timeout := false,
    dhcp_client_running := false, dhcp_server_running := false,
    respawn_limit := kSupplicantRespawnLimit, respawn_scheduled := false,
    sock_open := true, supplicant_pid := 1234, command_queue := [], events := [] }

/-- `mgr0` after the S1 discovery of `devS1` (delegate trace dropped). -/
def mgrS1 : Manager :=
  { mgr0 with store := [devS1], available_devices := [(devS1.address, some 0)] }

/-- `mgrS1` mid-formation: the discovered peer is the current peer. -/
def mgrConn : Manager :=
  { mgrS1 with current_peer := some 0 }


/-- C1: claim C1 requires `P2P-GROUP-REMOVED` to be a no-op without a
current peer and, with one, to move the peer to `failure` or
`disconnected`, notify the delegate, clear the peer, cancel the DHCP
timeout, stop both DHCP sides and clear the role flag.  The source's
guard is inverted (`if (current_peer_.get()) return;`): with a current
peer the handler returns with nothing changed and no delegate callback,
and without one it falls through to a null-pointer dereference.
Evaluated at the S5 input `P2P-GROUP-REMOVED p2p0 GO reason=FORMATION_FAILED`. -/
theorem C1_group_removed_guard_inverted :
    OnP2pGroupRemoved "FORMATION_FAILED" mgrConn = some mgrConn ∧
    OnP2pGroupRemoved "FORMATION_FAILED" mgrS1 = none := by
  exact ⟨rfl, rfl⟩

/-- C2: claim C2 requires `P2P-DEVICE-LOST` for a known address to emit
`on_device_lost` and remove the entry, and to leave the table unchanged
for an unknown address.  The source emits the callback but never erases
the entry — the address is still a key afterwards — and for an unknown
address `operator[]` default-inserts a null entry, so the table is not
left unchanged either.  Evaluated at the S1 input
`P2P-DEVICE-LOST p2p_dev_addr=4e:74:03:70:e2:c1`. -/
theorem C2_device_lost_not_removed :
    (OnP2pDeviceLost "4e:74:03:70:e2:c1" mgrS1).available_devices
        = [(devS1.address, some 0)] ∧
    (OnP2pDeviceLost "4e:74:03:70:e2:c1" mgrS1).events
        = [DelegateEvent.onDeviceLost (some devS1)] ∧
    (OnP2pDeviceLost "aa:bb:cc:dd:ee:ff" mgr0).available_devices
        = [("aa:bb:cc:dd:ee:ff", none)] := by
  exact ⟨rfl, rfl, rfl⟩

/-- C3 counterexample: after the DHCP-acquisition timeout and then the
peer-failure cooldown fire on a current peer, the peer's state is `kIdle`
but the delegate trace contains only the `kFailure` notification: the
idle transition claimed by C3 is never notified to the delegate. -/
theorem C3_idle_not_notified :
    ((OnDeviceFailureTimeout (OnGroupClientDhcpTimeout mgrConn)).getD mgr0).events
        = [DelegateEvent.onDeviceStateChanged
            { devS1 with state := NetworkDeviceState.kFailure }] ∧
    getDev ((OnDeviceFailureTimeout (OnGroupClientDhcpTimeout mgrConn)).getD mgr0) 0
        = { devS1 with state := NetworkDeviceState.kIdle } := by
  exact ⟨rfl, rfl⟩

/-- C3 (amended): when the DHCP-acquisition timeout fires with a current
peer present, the peer is set to `kFailure`, the 5 s peer-failure
cooldown is armed and the delegate is notified; when the cooldown later
fires while a peer is current, that peer's state is set to `kIdle` with
no delegate notification. -/
theorem C3_dhcp_timeout_then_cooldown (m : Manager) (id : Nat)
    (hcp : m.current_peer = some id) (hid : id < m.store.length)
    (hd : m.delegate = true) :
    ((OnGroupClientDhcpTimeout m).events = m.events ++
        [DelegateEvent.onDeviceStateChanged
          { getDev m id with state := NetworkDeviceState.kFailure }] ∧
      getDev (OnGroupClientDhcpTimeout m) id
        = { getDev m id with state := NetworkDeviceState.kFailure } ∧
      (OnGroupClientDhcpTimeout m).failure_timeout = true ∧
      (OnGroupClientDhcpTimeout m).current_peer = some id ∧
      kPeerFailureTimeout = 5000) ∧
    (∀ m2 : Manager, ∀ id2 : Nat, m2.current_peer = some id2 →
        id2 < m2.store.length →
        ∃ m3, OnDeviceFailureTimeout m2 = some m3 ∧
          getDev m3 id2 = { getDev m2 id2 with state := NetworkDeviceState.kIdle } ∧
          m3.events = m2.events) := by
  constructor
  · simp only [OnGroupClientDhcpTimeout, hcp]
    refine ⟨?_, ?_, ?_, ?_, rfl⟩ <;>
      simp [notifyStateChanged, setState, getDev,
        hd, List.getElem?_set_self hid]
  · intro m2 id2 hcp2 hid2
    refine ⟨{ setState m2 id2 NetworkDeviceState.kIdle with failure_timeout := false },
      by simp only [OnDeviceFailureTimeout, hcp2], ?_, rfl⟩
    simp [setState, getDev, List.getElem?_set_self hid2]

/-- C4: `P2P-GROUP-STARTED` with a current peer first moves the peer to
`kConfiguration` and notifies the delegate; when the role token is
exactly `"GO"` it then sets the role flag, moves the peer to
`kConnected`, starts the DHCP server and notifies again, leaving the
DHCP-acquisition timeout flag untouched (nothing is armed); with any
other role token it clears the role flag, starts the DHCP client and
arms the 5 s DHCP-acquisition timeout, leaving the peer in
`kConfiguration`. -/
theorem C4_group_started (m : Manager) (id : Nat) (role : String)
    (hcp : m.current_peer = some id) (hid : id < m.store.length)
    (hd : m.delegate = true) :
    (role = "GO" →
      (OnP2pGroupStarted role m).is_group_owner = true ∧
      getDev (OnP2pGroupStarted role m) id
        = { getDev m id with state := NetworkDeviceState.kConnected } ∧
      (OnP2pGroupStarted role m).dhcp_server_running = true ∧
      (OnP2pGroupStarted role m).dhcp_client_running = m.dhcp_client_running ∧
      (OnP2pGroupStarted role m).dhcp_timeout = m.dhcp_timeout ∧
      (OnP2pGroupStarted role m).events = m.events ++
        [DelegateEvent.onDeviceStateChanged
            { getDev m id with state := NetworkDeviceState.kConfiguration },
         DelegateEvent.onDeviceStateChanged
            { getDev m id with state := NetworkDeviceState.kConnected }]) ∧
    (role ≠ "GO" →
      (OnP2pGroupStarted role m).is_group_owner = false ∧
      getDev (OnP2pGroupStarted role m) id
        = { getDev m id with state := NetworkDeviceState.kConfiguration } ∧
      (OnP2pGroupStarted role m).dhcp_client_running = true ∧
      (OnP2pGroupStarted role m).dhcp_timeout = true ∧
      kDhcpIpAssignmentTimeout = 5000 ∧
      (OnP2pGroupStarted role m).dhcp_server_running = m.dhcp_server_running ∧
      (OnP2pGroupStarted role m).events = m.events ++
        [DelegateEvent.onDeviceStateChanged
            { getDev m id with state := NetworkDeviceState.kConfiguration }]) := by
  constructor
  · intro hrole
    subst hrole
    simp only [OnP2pGroupStarted, hcp]
    refine ⟨?_, ?_, ?_, ?_, ?_, ?_⟩ <;>
      simp [notifyStateChanged, setState, getDev, hd,
        List.getElem?_set, List.length_set, hid]
  · intro hrole
    have hb : (role == "GO") = false := by
      simpa using hrole
    simp only [OnP2pGroupStarted, hcp, hb]
    refine ⟨?_, ?_, ?_, ?_, rfl, ?_, ?_⟩ <;>
      simp [notifyStateChanged, setState, getDev, hd,
        List.getElem?_set, List.length_set, hid]

/-- C4 witness: both branches of `C4_group_started` at the concrete
mid-formation state `mgrConn`. -/
theorem C4_group_started_witness :
    (OnP2pGroupStarted "GO" mgrConn).is_group_owner = true ∧
    (OnP2pGroupStarted "client" mgrConn).dhcp_timeout = true := by
  refine ⟨((C4_group_started mgrConn 0 "GO" rfl (by decide) rfl).1 rfl).1, ?_⟩
  exact ((C4_group_started mgrConn 0 "client" rfl (by decide) rfl).2
    (by decide)).2.2.2.1

/-- C6: `Connect` fails (returning `false` with the state unchanged,
queue included) when the address is not a key of the peer table or when
a current peer already exists; otherwise it sets the current peer to the
table entry at that address and enqueues `P2P_CONNECT <address> pbc`. -/
theorem C6_connect (m : Manager) (addr : String) :
    ((tableFind m.available_devices addr = none ∨ m.current_peer.isSome = true) →
      Connect addr m = (false, m)) ∧
    (∀ v, tableFind m.available_devices addr = some v → m.current_peer = none →
      Connect addr m =
        (false, { m with current_peer := v,
                         command_queue := m.command_queue ++
                           ["P2P_CONNECT " ++ addr ++ " pbc"] })) := by
  constructor
  · intro h
    rcases h with h1 | h2
    · simp [Connect, h1]
    · cases hf : tableFind m.available_devices addr with
      | none => simp [Connect, hf]
      | some v => simp [Connect, hf, h2]
  · intro v hf hcp
    simp [Connect, hf, hcp, enqueueRequest]

/-- C6 witness: `Connect` at the post-discovery state `mgrS1` (success
path) and at the mid-formation state `mgrConn` (busy path). -/
theorem C6_connect_witness :
    Connect "4e:74:03:70:e2:c1" mgrS1 =
      (false, { mgrS1 with current_peer := some 0,
                           command_queue := mgrS1.command_queue ++
                             ["P2P_CONNECT " ++ "4e:74:03:70:e2:c1" ++ " pbc"] }) ∧
    Connect "4e:74:03:70:e2:c1" mgrConn = (false, mgrConn) := by
  refine ⟨(C6_connect mgrS1 "4e:74:03:70:e2:c1").2 (some 0) (by decide) rfl, ?_⟩
  exact (C6_connect mgrConn "4e:74:03:70:e2:c1").1 (Or.inr rfl)

/-- C7: the booleans returned by `Connect` and `DisconnectAll` are set
only inside the queued reply handler, which has not run when the
function returns, so even a call whose preconditions are satisfied
returns `false`. -/
theorem C7_returns_false (m : Manager) (addr : String) (v : Option Nat)
    (hfind : tableFind m.available_devices addr = some v)
    (hcp : m.current_peer = none) :
    (Connect addr m).1 = false ∧ (DisconnectAll m).1 = false := by
  simp [Connect, DisconnectAll, hfind, hcp]

/-- C7 witness: the satisfied-preconditions call at `mgrS1`. -/
theorem C7_returns_false_witness :
    (Connect "4e:74:03:70:e2:c1" mgrS1).1 = false ∧
    (DisconnectAll mgrS1).1 = false :=
  C7_returns_false mgrS1 "4e:74:03:70:e2:c1" (some 0) (by decide) rfl

/-- C8: `OnAddressAssigned` is a no-op without a current peer; with one
it cancels the DHCP-acquisition timeout, sets the peer to `kConnected`
and notifies the delegate, touching neither the current-peer slot nor
the peer table. -/
theorem C8_address_assigned (m : Manager) (addr : String) :
    (m.current_peer = none → OnAddressAssigned addr m = m) ∧
    (∀ id, m.current_peer = some id → id < m.store.length → m.delegate = true →
      (OnAddressAssigned addr m).dhcp_timeout = false ∧
      getDev (OnAddressAssigned addr m) id
        = { getDev m id with state := NetworkDeviceState.kConnected } ∧
      (OnAddressAssigned addr m).events = m.events ++
        [DelegateEvent.onDeviceStateChanged
          { getDev m id with state := NetworkDeviceState.kConnected }] ∧
      (OnAddressAssigned addr m).current_peer = m.current_peer ∧
      (OnAddressAssigned addr m).available_devices = m.available_devices) := by
  constructor
  · intro h
    simp [OnAddressAssigned, h]
  · intro id hcp hid hd
    simp only [OnAddressAssigned, hcp]
    refine ⟨rfl, ?_, ?_, rfl, rfl⟩ <;>
      simp [notifyStateChanged, setState, getDev, hd,
        List.getElem?_set, List.length_set, hid]

/-- C8 witness: `OnAddressAssigned` at the client-mode state `mgrConn`
and its no-op case at `mgrS1`. -/
theorem C8_address_assigned_witness :
    OnAddressAssigned "192.168.49.3" mgrS1 = mgrS1 ∧
    (OnAddressAssigned "192.168.49.3" mgrConn).dhcp_timeout = false := by
  refine ⟨(C8_address_assigned mgrS1 "192.168.49.3").1 rfl, ?_⟩
  exact ((C8_address_assigned mgrConn "192.168.49.3").2 0 rfl (by decide) rfl).1

/-- C9: `Reset` is idempotent — a second immediate run returns the same
state and emits no further delegate callbacks — and one run leaves the
current peer null, the peer table empty and the role flag cleared. -/
theorem C9_reset_idempotent (m : Manager) :
    Reset (Reset m) = Reset m ∧
    (Reset m).current_peer = none ∧
    (Reset m).available_devices = [] ∧
    (Reset m).is_group_owner = false ∧
    (Reset (Reset m)).events = (Reset m).events := by
  have hcpn : (Reset m).current_peer = none := by
    cases hm : m.current_peer <;> simp [Reset, hm]
  have hadv : (Reset m).available_devices = [] := by
    cases hm : m.current_peer <;> simp [Reset, hm]
  have higo : (Reset m).is_group_owner = false := by
    cases hm : m.current_peer <;> simp [Reset, hm]
  have key : ∀ r : Manager, r.current_peer = none → r.available_devices = [] →
      r.is_group_owner = false → Reset r = r := by
    intro r h1 h2 h3
    have : Reset r = { r with available_devices := [], is_group_owner := false } := by
      simp [Reset, h1, h2]
    rw [this, ← h2, ← h3]
  refine ⟨key _ hcpn hadv higo, hcpn, hadv, higo, ?_⟩
  rw [key _ hcpn hadv higo]

/-- C3 witness: the amended DHCP-timeout transitions at the concrete
mid-formation state `mgrConn`. -/
theorem C3_dhcp_timeout_then_cooldown_witness :
    (OnGroupClientDhcpTimeout mgrConn).failure_timeout = true ∧
    getDev (OnGroupClientDhcpTimeout mgrConn) 0
      = { devS1 with state := NetworkDeviceState.kFailure } := by
  have h := C3_dhcp_timeout_then_cooldown mgrConn 0 rfl (by decide) rfl
  exact ⟨h.1.2.2.1, h.1.2.1⟩

theorem respawn_limit_Reset (m : Manager) :
    (Reset m).respawn_limit = m.respawn_limit := by
  cases hm : m.current_peer <;> simp [Reset, hm, notifyStateChanged, setState]

theorem respawn_sched_Reset (m : Manager) :
    (Reset m).respawn_scheduled = m.respawn_scheduled := by
  cases hm : m.current_peer <;> simp [Reset, hm, notifyStateChanged, setState]

theorem respawn_limit_Stop (m : Manager) :
    (StopSupplicant m).respawn_limit = m.respawn_limit := by
  unfold StopSupplicant; split <;> rfl

theorem respawn_sched_Stop (m : Manager) :
    (StopSupplicant m).respawn_scheduled = m.respawn_scheduled := by
  unfold StopSupplicant; split <;> rfl

theorem respawn_limit_teardown (m : Manager) :
    (Reset (StopSupplicant (DisconnectSupplicant m))).respawn_limit
      = m.respawn_limit := by
  rw [respawn_limit_Reset, respawn_limit_Stop]
  rfl

theorem respawn_sched_teardown (m : Manager) :
    (Reset (StopSupplicant (DisconnectSupplicant m))).respawn_scheduled
      = m.respawn_scheduled := by
  rw [respawn_sched_Reset, respawn_sched_Stop]
  rfl

theorem respawn_limit_deviceFound (a n : String) (m m' : Manager)
    (h : OnP2pDeviceFound a n m = some m') :
    m'.respawn_limit = m.respawn_limit := by
  rcases hs : scanForPeer m.store m.available_devices a with _ | (_ | id) <;>
    simp only [OnP2pDeviceFound, hs] at h
  · exact Option.noConfusion h
  · injection h with h2
    subst h2; rfl
  · injection h with h2
    subst h2; rfl

theorem respawn_limit_deviceLost (a : String) (m : Manager) :
    (OnP2pDeviceLost a m).respawn_limit = m.respawn_limit := by
  cases h : (tableBracket m.available_devices a).1 <;>
    simp [OnP2pDeviceLost, h]

theorem respawn_limit_groupStarted (role : String) (m : Manager) :
    (OnP2pGroupStarted role m).respawn_limit = m.respawn_limit := by
  cases hm : m.current_peer with
  | none => simp [OnP2pGroupStarted, hm]
  | some id =>
      simp only [OnP2pGroupStarted, hm]
      split <;> rfl

theorem respawn_limit_addressAssigned (a : String) (m : Manager) :
    (OnAddressAssigned a m).respawn_limit = m.respawn_limit := by
  cases hm : m.current_peer <;> simp [OnAddressAssigned, hm, notifyStateChanged, setState]

theorem respawn_limit_dhcpTimeout (m : Manager) :
    (OnGroupClientDhcpTimeout m).respawn_limit = m.respawn_limit := by
  cases hm : m.current_peer <;>
    simp [OnGroupClientDhcpTimeout, hm, notifyStateChanged, setState]

theorem respawn_limit_Connect (a : String) (m : Manager) :
    (Connect a m).2.respawn_limit = m.respawn_limit := by
  rcases hf : tableFind m.available_devices a with _ | v
  · simp only [Connect, hf]
  · simp only [Connect, hf]
    split <;> rfl

theorem respawn_limit_HandleFailed (m : Manager) :
    (HandleSupplicantFailed m).respawn_limit ≤ m.respawn_limit := by
  unfold HandleSupplicantFailed
  split
  · rw [respawn_limit_teardown]
    exact Nat.sub_le _ _
  · rw [respawn_limit_teardown]

/-- C5: the respawn counter never increases except through a successful
`ConnectSupplicant`, which re-arms it to its maximum 10;
`HandleSupplicantFailed` arms the 2 s respawn source and decrements the
counter exactly when the counter is non-zero, schedules nothing when it
is zero, and never increases it; a failed `ConnectSupplicant` leaves the
counter unchanged. -/
theorem C5_respawn_budget :
    (∀ m : Manager, (HandleSupplicantFailed m).respawn_limit ≤ m.respawn_limit) ∧
    (∀ m : Manager, 0 < m.respawn_limit →
      (HandleSupplicantFailed m).respawn_scheduled = true ∧
      (HandleSupplicantFailed m).respawn_limit = m.respawn_limit - 1 ∧
      kSupplicantRespawnTimeout = 2000) ∧
    (∀ m : Manager, m.respawn_limit = 0 →
      (HandleSupplicantFailed m).respawn_scheduled = m.respawn_scheduled ∧
      (HandleSupplicantFailed m).respawn_limit = 0) ∧
    (∀ env : ConnEnv, ∀ m : Manager, (ConnectSupplicant env m).1 = true →
      (ConnectSupplicant env m).2.respawn_limit = kSupplicantRespawnLimit ∧
      kSupplicantRespawnLimit = 10) ∧
    (∀ env : ConnEnv, ∀ m : Manager, (ConnectSupplicant env m).1 = false →
      (ConnectSupplicant env m).2.respawn_limit = m.respawn_limit) ∧
    (∀ op : Op, ∀ m m' : Manager, applyOp op m = some m' →
      m.respawn_limit < m'.respawn_limit → ∃ env, op = Op.connectSup env) := by
  refine ⟨respawn_limit_HandleFailed, ?_, ?_, ?_, ?_, ?_⟩
  · intro m h
    have hpos : m.respawn_limit > 0 := h
    unfold HandleSupplicantFailed
    rw [if_pos hpos]
    exact ⟨by rw [respawn_sched_teardown], by rw [respawn_limit_teardown], rfl⟩
  · intro m h
    have hneg : ¬ m.respawn_limit > 0 := by omega
    unfold HandleSupplicantFailed
    rw [if_neg hneg]
    exact ⟨by rw [respawn_sched_teardown], by rw [respawn_limit_teardown]; exact h⟩
  · intro env m h
    rcases env with ⟨s, b, c, w⟩
    cases s <;> cases b <;> cases c <;> cases w <;>
      simp_all [ConnectSupplicant, SetWfdSubElements, enqueueRequest,
        kSupplicantRespawnLimit]
  · intro env m h
    rcases env with ⟨s, b, c, w⟩
    cases s <;> cases b <;> cases c <;> cases w <;>
      simp_all [ConnectSupplicant, SetWfdSubElements, enqueueRequest]
  · intro op m m' h hlt
    cases op with
    | deviceFound a n =>
        rw [respawn_limit_deviceFound a n m m' h] at hlt
        exact absurd hlt (by omega)
    | deviceLost a =>
        simp only [applyOp] at h
        injection h with h2
        rw [← h2, respawn_limit_deviceLost] at hlt
        exact absurd hlt (by omega)
    | groupStarted r =>
        simp only [applyOp] at h
        injection h with h2
        rw [← h2, respawn_limit_groupStarted] at hlt
        exact absurd hlt (by omega)
    | groupRemoved r =>
        simp only [applyOp, OnP2pGroupRemoved] at h
        by_cases hc : m.current_peer.isSome = true
        · rw [if_pos hc] at h
          injection h with h2
          rw [← h2] at hlt
          exact absurd hlt (by omega)
        · rw [if_neg hc] at h
          exact Option.noConfusion h
    | addressAssigned a =>
        simp only [applyOp] at h
        injection h with h2
        rw [← h2, respawn_limit_addressAssigned] at hlt
        exact absurd hlt (by omega)
    | dhcpTimeoutFired =>
        simp only [applyOp] at h
        injection h with h2
        rw [← h2, respawn_limit_dhcpTimeout] at hlt
        exact absurd hlt (by omega)
    | failureTimeoutFired =>
        simp only [applyOp, OnDeviceFailureTimeout] at h
        cases hm : m.current_peer with
        | none => rw [hm] at h; exact Option.noConfusion h
        | some id =>
            rw [hm] at h
            injection h with h2
            rw [← h2] at hlt
            simp [setState] at hlt
    | resetOp =>
        simp only [applyOp] at h
        injection h with h2
        rw [← h2, respawn_limit_Reset] at hlt
        exact absurd hlt (by omega)
    | connectOp a =>
        simp only [applyOp] at h
        injection h with h2
        rw [← h2, respawn_limit_Connect] at hlt
        exact absurd hlt (by omega)
    | disconnectAllOp =>
        simp only [applyOp] at h
        injection h with h2
        rw [← h2] at hlt
        simp [DisconnectAll, enqueueRequest] at hlt
    | handleFailure =>
        simp only [applyOp] at h
        injection h with h2
        rw [← h2] at hlt
        exact absurd hlt (by have := respawn_limit_HandleFailed m; omega)
    | respawnFired ok =>
        simp only [applyOp, OnSupplicantRespawn] at h
        injection h with h2
        rw [← h2] at hlt
        by_cases hc : (!ok && decide (m.respawn_limit > 0)) = true
        · rw [if_pos hc] at hlt
          simp at hlt
          omega
        · rw [if_neg hc] at hlt
          simp at hlt
    | connectSup env => exact ⟨env, rfl⟩

/-- C5 witness: a failure handling with full budget schedules the
respawn and decrements to 9; an all-successful `ConnectSupplicant`
re-arms the exhausted budget to 10. -/
theorem C5_respawn_budget_witness :
    (HandleSupplicantFailed mgr0).respawn_scheduled = true ∧
    (HandleSupplicantFailed mgr0).respawn_limit = 9 ∧
    (ConnectSupplicant ⟨true, true, true, true⟩
      { mgr0 with respawn_limit := 0 }).2.respawn_limit = 10 := by
  have h1 := C5_respawn_budget.2.1 mgr0 (by decide)
  have h4 := C5_respawn_budget.2.2.2.1 ⟨true, true, true, true⟩
    { mgr0 with respawn_limit := 0 } (by decide)
  exact ⟨h1.1, h1.2.1, h4.2 ▸ h4.1⟩


/-- Under the table invariants (no null entries, keys equal the stored
device's address), the `OnP2pDeviceFound` scan agrees with the map
lookup: it finds exactly the pointer the table holds under the event
address. -/
theorem scan_eq_find (store : List NetworkDevice)
    (t : List (String × Option Nat)) (addr : String)
    (hnn : ∀ e ∈ t, e.2 ≠ none)
    (hkey : ∀ e ∈ t, ∀ id : Nat, e.2 = some id →
      (store.getD id devNone).address = e.1) :
    scanForPeer store t addr = some (tableFind t addr).join := by
  induction t with
  | nil => rfl
  | cons e rest ih =>
      rcases e with ⟨k, v⟩
      cases v with
      | none => exact absurd rfl (hnn (k, none) (List.mem_cons_self _ _))
      | some id =>
          have haddr : (store.getD id devNone).address = k :=
            hkey (k, some id) (List.mem_cons_self _ _) id rfl
          cases hc : ((store.getD id devNone).address == addr) with
          | true =>
              have hkaddr : (k == addr) = true := by
                rw [← haddr]; exact hc
              simp only [scanForPeer]
              rw [hc]
              simp [tableFind, List.find?_cons, hkaddr]
          | false =>
              have hkne : (k == addr) = false := by
                rw [← haddr]; exact hc
              have ihr := ih (fun e he => hnn e (List.mem_cons_of_mem _ he))
                (fun e he id2 h2 => hkey e (List.mem_cons_of_mem _ he) id2 h2)
              simp only [scanForPeer]
              rw [hc]
              simpa [tableFind, List.find?_cons, hkne] using ihr

/-- C10: a `P2P-DEVICE-FOUND` event whose address is already a key of
the peer table (the table well-formed: entries non-null and keyed by
their device's address) updates the stored device in place — new name,
state kept — and invokes no delegate callback: the table, current peer,
event trace and command queue are untouched, and the store changes only
at the matched index. -/
theorem C10_device_found_update_in_place (m : Manager) (addr name : String)
    (hnn : ∀ e ∈ m.available_devices, e.2 ≠ none)
    (hkey : ∀ e ∈ m.available_devices, ∀ id : Nat, e.2 = some id →
      (m.store.getD id devNone).address = e.1)
    (hmem : ∃ v, tableFind m.available_devices addr = some v) :
    ∃ id, tableFind m.available_devices addr = some (some id) ∧
      OnP2pDeviceFound addr name m =
        some { m with store := m.store.set id (updDev m id addr name) } ∧
      (∀ j, j ≠ id →
        (m.store.set id (updDev m id addr name)).getD j devNone
          = m.store.getD j devNone) ∧
      (updDev m id addr name).state = (getDev m id).state := by
  obtain ⟨v, hv⟩ := hmem
  have hvmem : ∃ e ∈ m.available_devices, e.2 = v := by
    rcases hfe : m.available_devices.find? (fun e => e.1 == addr) with _ | e
    · rw [tableFind, hfe] at hv
      exact Option.noConfusion hv
    · rw [tableFind, hfe] at hv
      have h2 : e.2 = v := by simpa using hv
      exact ⟨e, List.mem_of_find?_eq_some hfe, h2⟩
  obtain ⟨e, hemem, hev⟩ := hvmem
  obtain ⟨id, hid⟩ : ∃ id, v = some id := by
    cases v with
    | none => exact absurd hev (hnn e hemem)
    | some id => exact ⟨id, rfl⟩
  subst hid
  refine ⟨id, hv, ?_, ?_, rfl⟩
  · have hscan : scanForPeer m.store m.available_devices addr = some (some id) := by
      rw [scan_eq_find m.store m.available_devices addr hnn hkey, hv]
      rfl
    simp only [OnP2pDeviceFound, hscan]
    rfl
  · intro j hj
    simp [List.getD_eq_getElem?_getD, List.getElem?_set_ne (Ne.symm hj)]

/-- C10 witness: re-discovering the S1 peer under a new name updates the
single store slot in place. -/
theorem C10_device_found_witness :
    OnP2pDeviceFound "4e:74:03:70:e2:c1" "Aquaris M10 v2" mgrS1 =
      some { mgrS1 with
               store := mgrS1.store.set 0
                 (updDev mgrS1 0 "4e:74:03:70:e2:c1" "Aquaris M10 v2") } := by
  obtain ⟨id, h1, h2, _, _⟩ :=
    C10_device_found_update_in_place mgrS1 "4e:74:03:70:e2:c1" "Aquaris M10 v2"
      (by decide)
      (by
        intro e he id hide
        have he2 : e = (devS1.address, some 0) := by
          simpa [mgrS1] using he
        subst he2
        have h0 : (0 : Nat) = id := by
          simpa using hide
        subst h0
        rfl)
      ⟨some 0, by decide⟩
  have h0 : tableFind mgrS1.available_devices "4e:74:03:70:e2:c1"
      = some (some 0) := by decide
  have hid : id = 0 := by
    have hx := h1.symm.trans h0
    simpa using hx
  rw [hid] at h2
  exact h2
